import Mathlib

/-!
# Verification of the AetherMind pathway/token core

Shallow embedding of the two Solana programs under `src/programs/`
(`neural_pathway` and `token`) together with the pathway-store and
token-registry operations described by the specification.

Conventions of the embedding:
* `Pubkey` (an opaque 32-byte identity) is a length-32 list of bytes.
* Rust `u8`/`u64` fields become `Nat` (the only arithmetic performed on
  them is saturating within [0,255], resp. `+ 1`, so no wraparound site
  exists in the modelled operations); `i64` timestamps become `Int`.
* The current time, read from the system clock in the source
  (`SystemTime::now`), is passed as an explicit `now : Int` argument.
* Fallible operations return an `Except` result paired with the
  resulting store, the store being returned unchanged on error.
-/

/-- A byte, the element type of identities and instruction payloads. -/
abbrev Byte := Fin 256

/-- Opaque 32-byte identity handle (`solana_program::pubkey::Pubkey`). -/
abbrev Pubkey := { l : List Byte // l.length = 32 }

/-- The error taxonomy of the neural-pathway program
(`src/programs/neural_pathway/src/error.rs`), variants in source order. -/
inductive NeuralPathwayError where
  | InvalidInstruction
  | NotRentExempt
  | InvalidAgent
  | PathwayAlreadyExists
deriving DecidableEq

/-- The Rust discriminant of each variant (`e as u32`): Rust assigns
0-based discriminants in declaration order. -/
def NeuralPathwayError.discriminant : NeuralPathwayError → Nat
  | .InvalidInstruction => 0
  | .NotRentExempt => 1
  | .InvalidAgent => 2
  | .PathwayAlreadyExists => 3

/-- `solana_program::program_error::ProgramError`, restricted to the one
variant this code ever constructs (`Custom`). -/
inductive ProgramError where
  | Custom (code : Nat)
deriving DecidableEq

/-- `impl From<NeuralPathwayError> for ProgramError`
(`src/programs/neural_pathway/src/error.rs`, lines 16-20):
`ProgramError::Custom(e as u32)`. -/
def ProgramError.fromNeuralPathwayError (e : NeuralPathwayError) : ProgramError :=
  ProgramError.Custom e.discriminant

/-- `NeuralPathway` record (`src/programs/neural_pathway/src/state.rs`). -/
structure NeuralPathway where
  source_agent : Pubkey
  target_agent : Pubkey
  strength : Nat
  created_at : Int
  last_used : Int
  success_count : Nat
  failure_count : Nat
deriving DecidableEq

/-- `NeuralPathway::new` (`src/programs/neural_pathway/src/state.rs`,
lines 16-31), with the clock reading passed in as `now`. -/
def NeuralPathway.new (source_agent target_agent : Pubkey) (now : Int) : NeuralPathway :=
  { source_agent := source_agent
    target_agent := target_agent
    strength := 1
    created_at := now
    last_used := now
    success_count := 0
    failure_count := 0 }

/-- `TokenMetadata` record (`src/programs/token/src/state.rs`). -/
structure TokenMetadata where
  pathway_id : Pubkey
  mint : Pubkey
  owner : Pubkey
  created_at : Int
  strength : Nat
  uri : String
deriving DecidableEq

/-- `TokenMetadata::new` (`src/programs/token/src/state.rs`, lines 14-29),
with the clock reading passed in as `now`. Note the source initializes
`strength` to the constant 1 and receives no pathway record. -/
def TokenMetadata.new (pathway_id mint owner : Pubkey) (uri : String) (now : Int) : TokenMetadata :=
  { pathway_id := pathway_id
    mint := mint
    owner := owner
    created_at := now
    strength := 1
    uri := uri }

/-- The slice of on-ledger account state an entrypoint receives
(`solana_program::account_info::AccountInfo`), restricted to the fields
that constitute mutable account state. -/
structure AccountInfo where
  key : Pubkey
  lamports : Nat
  data : List Byte
  owner : Pubkey
deriving DecidableEq

namespace NeuralPathwayProgram

/-- `process_instruction` of the neural-pathway program
(`src/programs/neural_pathway/src/lib.rs`, lines 14-21): it logs the
instruction data and returns `Ok(())`, touching no account. The result is
paired with the (unchanged) account list to make state explicit. -/
def process_instruction (_program_id : Pubkey) (accounts : List AccountInfo)
    (_instruction_data : List Byte) : Except ProgramError Unit × List AccountInfo :=
  (Except.ok (), accounts)

end NeuralPathwayProgram

namespace TokenProgram

/-- `process_instruction` of the token program
(`src/programs/token/src/lib.rs`, lines 13-20): it logs the instruction
data and returns `Ok(())`, touching no account. The result is paired with
the (unchanged) account list to make state explicit. -/
def process_instruction (_program_id : Pubkey) (accounts : List AccountInfo)
    (_instruction_data : List Byte) : Except ProgramError Unit × List AccountInfo :=
  (Except.ok (), accounts)

end TokenProgram

/-- The identity key of a pathway, derived from (source agent, target
agent); modelled as the pair itself. -/
abbrev PathwayKey := Pubkey × Pubkey

/-- The Pathway Store: `Pathway` records keyed by identity key, modelled
as an association list (most recent binding first). -/
abbrev PathwayStore := List (PathwayKey × NeuralPathway)

/-- Key-existence lookup in the Pathway Store (first binding wins). -/
def storeLookup : PathwayStore → PathwayKey → Option NeuralPathway
  | [], _ => none
  | e :: rest, k => if e.1 = k then some e.2 else storeLookup rest k

/-- Replace every binding of key `k` by the record `p`, leaving other
bindings untouched. -/
def storeUpdate (s : PathwayStore) (k : PathwayKey) (p : NeuralPathway) : PathwayStore :=
  s.map (fun e => if e.1 = k then (k, p) else e)

/-- Modelled from the spec: the `Create(source_agent, target_agent,
storage_eligible)` operation of the Pathway Store (§4.1); its processing
logic is absent from the source (the entrypoints are stubs), so the
precondition checks are taken from the spec in the order it lists them:
`source_agent != target_agent` (else `InvalidAgent`), no existing pathway
with this identity key (else `PathwayAlreadyExists`), `storage_eligible`
(else `NotRentExempt`). Record construction is `NeuralPathway::new` from
the source. On error the store is returned unchanged. -/
def create (s : PathwayStore) (source_agent target_agent : Pubkey)
    (storage_eligible : Bool) (now : Int) :
    Except NeuralPathwayError NeuralPathway × PathwayStore :=
  if source_agent = target_agent then
    (Except.error NeuralPathwayError.InvalidAgent, s)
  else if (storeLookup s (source_agent, target_agent)).isSome then
    (Except.error NeuralPathwayError.PathwayAlreadyExists, s)
  else if storage_eligible = false then
    (Except.error NeuralPathwayError.NotRentExempt, s)
  else
    let p := NeuralPathway.new source_agent target_agent now
    (Except.ok p, ((source_agent, target_agent), p) :: s)

/-- A reinforcement outcome (§4.1). -/
inductive Outcome where
  | Success
  | Failure
deriving DecidableEq

/-- Modelled from the spec: the single-record transition applied by
`Reinforce` (§4.1). `Success`: `success_count += 1`,
`strength = min(255, strength + 1)`; `Failure`: `failure_count += 1`,
`strength = max(0, strength - 1)` (in `Nat`, truncated subtraction is
exactly the saturating decrement); `last_used = now` unconditionally. -/
def applyOutcome (p : NeuralPathway) (o : Outcome) (now : Int) : NeuralPathway :=
  match o with
  | Outcome.Success =>
      { p with
        success_count := p.success_count + 1
        strength := min 255 (p.strength + 1)
        last_used := now }
  | Outcome.Failure =>
      { p with
        failure_count := p.failure_count + 1
        strength := p.strength - 1
        last_used := now }

/-- Modelled from the spec: the `Reinforce(identity_key, outcome)`
operation of the Pathway Store (§4.1); its processing logic is absent
from the source, so it follows the spec: the pathway must exist (missing
key is the `InvalidAgent`-class not-found failure the spec prescribes),
and the transition is `applyOutcome`. On error the store is unchanged. -/
def reinforce (s : PathwayStore) (k : PathwayKey) (o : Outcome) (now : Int) :
    Except NeuralPathwayError NeuralPathway × PathwayStore :=
  match storeLookup s k with
  | none => (Except.error NeuralPathwayError.InvalidAgent, s)
  | some p =>
      let q := applyOutcome p o now
      (Except.ok q, storeUpdate s k q)

/-- `n` successive `reinforce` calls with the same key, outcome and
timestamp, threading the store. -/
def reinforceIter (s : PathwayStore) (k : PathwayKey) (o : Outcome) (now : Int) :
    Nat → PathwayStore
  | 0 => s
  | n + 1 => (reinforce (reinforceIter s k o now n) k o now).2

/-- The Token Registry: `TokenMetadata` records keyed by mint. -/
abbrev TokenRegistry := List (Pubkey × TokenMetadata)

/-- Mint lookup in the Token Registry. -/
def regLookup : TokenRegistry → Pubkey → Option TokenMetadata
  | [], _ => none
  | e :: rest, m => if e.1 = m then some e.2 else regLookup rest m

/-- An index resolving a token-side `pathway_id` to a pathway record; the
derivation of the id from the identity key is an external-ledger concern
(§2, §6), so the index is taken as an explicit input. -/
abbrev PathwayIndex := List (Pubkey × NeuralPathway)

/-- Pathway-id resolution against a `PathwayIndex`. -/
def indexLookup : PathwayIndex → Pubkey → Option NeuralPathway
  | [], _ => none
  | e :: rest, i => if e.1 = i then some e.2 else indexLookup rest i

/-- Modelled from the spec: the `Issue(pathway_id, mint, owner, uri)`
operation of the Token Registry (§4.2); its processing logic is absent
from the source, so the precondition checks follow the spec: the pathway
must resolve (else the `InvalidAgent`-class "unknown pathway" error) and
`mint` must be fresh (else the `PathwayAlreadyExists`-class duplicate
error). Record construction is `TokenMetadata::new` from the source. On
error the registry is returned unchanged. -/
def issue (px : PathwayIndex) (reg : TokenRegistry)
    (pathway_id mint owner : Pubkey) (uri : String) (now : Int) :
    Except NeuralPathwayError TokenMetadata × TokenRegistry :=
  match indexLookup px pathway_id with
  | none => (Except.error NeuralPathwayError.InvalidAgent, reg)
  | some _ =>
      if (regLookup reg mint).isSome then
        (Except.error NeuralPathwayError.PathwayAlreadyExists, reg)
      else
        let t := TokenMetadata.new pathway_id mint owner uri now
        (Except.ok t, (mint, t) :: reg)

/-- The 32-byte identity all of whose bytes are `b`; used for concrete
instantiations. -/
def pk (b : Byte) : Pubkey := ⟨List.replicate 32 b, by simp⟩

/-- Looking the key up after `storeUpdate` of that key returns the new
record, provided the key was bound. -/
theorem storeLookup_update_self (s : PathwayStore) (k : PathwayKey) (p q : NeuralPathway)
    (h : storeLookup s k = some p) : storeLookup (storeUpdate s k q) k = some q := by
  induction s with
  | nil => simp [storeLookup] at h
  | cons e rest ih =>
    simp only [storeUpdate, List.map_cons]
    by_cases he : e.1 = k
    · simp [storeLookup, he]
    · simp only [storeLookup, if_neg he] at h
      simpa [storeLookup, he, storeUpdate] using ih h

/-- Strength after `n` iterated `Success` reinforcements: saturating at
255, it equals `min 255 (strength + n)`. -/
theorem reinforceIter_success_lookup (s : PathwayStore) (k : PathwayKey) (now : Int)
    (p : NeuralPathway) (h : storeLookup s k = some p) (hs : p.strength ≤ 255) :
    ∀ n : Nat, ∃ r, storeLookup (reinforceIter s k Outcome.Success now n) k = some r ∧
      r.strength = min 255 (p.strength + n) := by
  intro n
  induction n with
  | zero => exact ⟨p, h, by omega⟩
  | succ m ih =>
    obtain ⟨r, hr, hstr⟩ := ih
    refine ⟨applyOutcome r Outcome.Success now, ?_, ?_⟩
    · simp [reinforceIter, reinforce, hr, storeLookup_update_self _ _ _ _ hr]
    · simp only [applyOutcome]
      omega

/-- Strength after `n` iterated `Failure` reinforcements: truncated
subtraction, it equals `strength - n` (floored at 0). -/
theorem reinforceIter_failure_lookup (s : PathwayStore) (k : PathwayKey) (now : Int)
    (p : NeuralPathway) (h : storeLookup s k = some p) :
    ∀ n : Nat, ∃ r, storeLookup (reinforceIter s k Outcome.Failure now n) k = some r ∧
      r.strength = p.strength - n := by
  intro n
  induction n with
  | zero => exact ⟨p, h, rfl⟩
  | succ m ih =>
    obtain ⟨r, hr, hstr⟩ := ih
    refine ⟨applyOutcome r Outcome.Failure now, ?_, ?_⟩
    · simp [reinforceIter, reinforce, hr, storeLookup_update_self _ _ _ _ hr]
    · simp only [applyOutcome]
      omega

/-- A key absent from the lookup is absent from the key list. -/
theorem storeLookup_none_not_mem (s : PathwayStore) (k : PathwayKey)
    (h : storeLookup s k = none) : k ∉ s.map Prod.fst := by
  induction s with
  | nil => simp
  | cons e rest ih =>
    by_cases he : e.1 = k
    · simp [storeLookup, he] at h
    · simp only [storeLookup, if_neg he] at h
      simp only [List.map_cons, List.mem_cons]
      intro hk
      rcases hk with hk | hk
      · exact he hk.symm
      · exact (ih h) hk

/-- `create` preserves uniqueness of identity keys in the store. -/
theorem create_preserves_key_nodup (t : PathwayStore) (c d : Pubkey) (e : Bool) (m : Int)
    (hnd : (t.map Prod.fst).Nodup) : (((create t c d e m).2).map Prod.fst).Nodup := by
  by_cases hcd : c = d
  · simpa [create, hcd] using hnd
  · by_cases hex : (storeLookup t (c, d)).isSome
    · simpa [create, hcd, hex] using hnd
    · by_cases he : e = false
      · simpa [create, hcd, hex, he] using hnd
      · rw [Option.isSome_iff_exists] at hex
        push_neg at hex
        have hnone : storeLookup t (c, d) = none := by
          cases hcase : storeLookup t (c, d) with
          | none => rfl
          | some v => exact absurd hcase (hex v)
        simp only [create, if_neg hcd, hnone, Option.isSome_none, Bool.false_eq_true,
          if_false, if_neg he]
        simp only [List.map_cons, List.nodup_cons]
        exact ⟨storeLookup_none_not_mem t (c, d) hnone, hnd⟩

/-- A successful `create` returns exactly the record built by
`NeuralPathway::new` and prepends its binding to the store. -/
theorem create_ok_eq (s : PathwayStore) (a b : Pubkey) (elig : Bool) (now : Int)
    (p : NeuralPathway) (h : (create s a b elig now).1 = Except.ok p) :
    p = NeuralPathway.new a b now ∧
    (create s a b elig now).2 = ((a, b), p) :: s := by
  by_cases hab : a = b
  · simp [create, hab] at h
  · cases hl : storeLookup s (a, b) with
    | some v => simp [create, hab, hl] at h
    | none =>
      by_cases he : elig = false
      · simp [create, hab, hl, he] at h
      · simp only [create, if_neg hab, hl, Option.isSome_none, Bool.false_eq_true,
          if_false, if_neg he, Except.ok.injEq] at h ⊢
        exact ⟨h.symm, by rw [h]⟩

/-- A pathway record of strength 7 (counts and timestamps concrete),
used to instantiate claims about issuance snapshots. -/
def pathwaySeven : NeuralPathway :=
  { source_agent := pk 1
    target_agent := pk 2
    strength := 7
    created_at := 0
    last_used := 3
    success_count := 6
    failure_count := 0 }

/-- The record produced by `NeuralPathway::new` at the concrete agents
`pk 1`, `pk 2` and time 0. -/
def basePathway : NeuralPathway := NeuralPathway.new (pk 1) (pk 2) 0

/-- A one-record store binding the identity key `(pk 1, pk 2)`. -/
def baseStore : PathwayStore := [((pk 1, pk 2), basePathway)]

/-- C10: the conversion from `NeuralPathwayError` to `ProgramError` maps
the variants `InvalidInstruction`, `NotRentExempt`, `InvalidAgent`,
`PathwayAlreadyExists` to `ProgramError::Custom` codes 0, 1, 2, 3
respectively, and distinct error kinds yield distinct custom codes. -/
theorem error_code_conversion :
    ProgramError.fromNeuralPathwayError NeuralPathwayError.InvalidInstruction =
      ProgramError.Custom 0 ∧
    ProgramError.fromNeuralPathwayError NeuralPathwayError.NotRentExempt =
      ProgramError.Custom 1 ∧
    ProgramError.fromNeuralPathwayError NeuralPathwayError.InvalidAgent =
      ProgramError.Custom 2 ∧
    ProgramError.fromNeuralPathwayError NeuralPathwayError.PathwayAlreadyExists =
      ProgramError.Custom 3 ∧
    ProgramError.fromNeuralPathwayError NeuralPathwayError.InvalidInstruction ≠
      ProgramError.fromNeuralPathwayError NeuralPathwayError.NotRentExempt ∧
    ProgramError.fromNeuralPathwayError NeuralPathwayError.InvalidInstruction ≠
      ProgramError.fromNeuralPathwayError NeuralPathwayError.InvalidAgent ∧
    ProgramError.fromNeuralPathwayError NeuralPathwayError.InvalidInstruction ≠
      ProgramError.fromNeuralPathwayError NeuralPathwayError.PathwayAlreadyExists ∧
    ProgramError.fromNeuralPathwayError NeuralPathwayError.NotRentExempt ≠
      ProgramError.fromNeuralPathwayError NeuralPathwayError.InvalidAgent ∧
    ProgramError.fromNeuralPathwayError NeuralPathwayError.NotRentExempt ≠
      ProgramError.fromNeuralPathwayError NeuralPathwayError.PathwayAlreadyExists ∧
    ProgramError.fromNeuralPathwayError NeuralPathwayError.InvalidAgent ≠
      ProgramError.fromNeuralPathwayError NeuralPathwayError.PathwayAlreadyExists := by
  decide

/-- C9: both program entrypoints return `Ok(())` on every input triple
and leave the account list unchanged. -/
theorem entrypoints_always_ok (pid : Pubkey) (accounts : List AccountInfo)
    (data : List Byte) :
    NeuralPathwayProgram.process_instruction pid accounts data = (Except.ok (), accounts) ∧
    TokenProgram.process_instruction pid accounts data = (Except.ok (), accounts) :=
  ⟨rfl, rfl⟩

/-- C7 (counterexample): at the concrete unrecognized payload `[255]`,
the neural-pathway entrypoint returns `Ok(())`, not the
`InvalidInstruction` error the claim requires. -/
theorem neural_invalid_instruction_cex :
    (NeuralPathwayProgram.process_instruction (pk 0) [] [(255 : Byte)]).1 = Except.ok () ∧
    (NeuralPathwayProgram.process_instruction (pk 0) [] [(255 : Byte)]).1 ≠
      Except.error (ProgramError.fromNeuralPathwayError NeuralPathwayError.InvalidInstruction) :=
  ⟨rfl, fun h => nomatch h⟩

/-- C7 (amended): for every request, malformed or not, the neural-pathway
program's processing returns `Ok(())`, changes no account state, and in
particular never surfaces any `NeuralPathwayError` (the
`InvalidInstruction` variant is declared but never returned). -/
theorem neural_processing_never_errors (pid : Pubkey) (accounts : List AccountInfo)
    (data : List Byte) :
    (NeuralPathwayProgram.process_instruction pid accounts data).1 = Except.ok () ∧
    (NeuralPathwayProgram.process_instruction pid accounts data).2 = accounts ∧
    ∀ e : NeuralPathwayError,
      (NeuralPathwayProgram.process_instruction pid accounts data).1 ≠
        Except.error (ProgramError.fromNeuralPathwayError e) :=
  ⟨rfl, rfl, fun _ h => nomatch h⟩

/-- C5: `Create(a, a)` returns the `InvalidAgent` error and leaves the
store unchanged. -/
theorem create_self_loop_invalid_agent (s : PathwayStore) (a : Pubkey)
    (elig : Bool) (now : Int) :
    create s a a elig now = (Except.error NeuralPathwayError.InvalidAgent, s) := by
  simp [create]

/-- C4: a successful `Create(a, b)` on distinct agents produces a pathway
with strength 1, both counters 0, and `created_at = last_used = now`, the
resulting store being the old store plus exactly the one new binding. -/
theorem create_initializes_pathway (s : PathwayStore) (a b : Pubkey) (elig : Bool)
    (now : Int) (p : NeuralPathway) (_hab : a ≠ b)
    (h : (create s a b elig now).1 = Except.ok p) :
    p.source_agent = a ∧ p.target_agent = b ∧ p.strength = 1 ∧
    p.success_count = 0 ∧ p.failure_count = 0 ∧
    p.created_at = now ∧ p.last_used = now ∧
    (create s a b elig now).2 = ((a, b), p) :: s := by
  obtain ⟨hp, hs⟩ := create_ok_eq s a b elig now p h
  subst hp
  exact ⟨rfl, rfl, rfl, rfl, rfl, rfl, rfl, hs⟩

/-- C4 (witness): instantiation at the empty store, agents `pk 1` and
`pk 2`, eligibility `true` and time 0. -/
theorem create_initializes_pathway_witness :
    (pk 1 ≠ pk 2 ∧ (create [] (pk 1) (pk 2) true 0).1 = Except.ok basePathway) ∧
    (basePathway.source_agent = pk 1 ∧ basePathway.target_agent = pk 2 ∧
      basePathway.strength = 1 ∧ basePathway.success_count = 0 ∧
      basePathway.failure_count = 0 ∧ basePathway.created_at = 0 ∧
      basePathway.last_used = 0 ∧
      (create [] (pk 1) (pk 2) true 0).2 = ((pk 1, pk 2), basePathway) :: []) :=
  ⟨⟨by decide, rfl⟩, create_initializes_pathway [] (pk 1) (pk 2) true 0 basePathway
    (by decide) rfl⟩

/-- C6: after a successful `Create(a, b)`, a second `Create(a, b)`
returns `PathwayAlreadyExists` and leaves the store (and hence the first
call's record) unchanged; moreover `create` preserves uniqueness of
identity keys in the store. -/
theorem create_duplicate_rejected (s : PathwayStore) (a b : Pubkey) (e1 e2 : Bool)
    (n1 n2 : Int) (p : NeuralPathway) (hab : a ≠ b)
    (h : (create s a b e1 n1).1 = Except.ok p) :
    create ((create s a b e1 n1).2) a b e2 n2 =
      (Except.error NeuralPathwayError.PathwayAlreadyExists, (create s a b e1 n1).2) ∧
    storeLookup ((create s a b e1 n1).2) (a, b) = some p ∧
    ∀ (t : PathwayStore) (c d : Pubkey) (e : Bool) (m : Int),
      (t.map Prod.fst).Nodup → (((create t c d e m).2).map Prod.fst).Nodup := by
  obtain ⟨_, hs⟩ := create_ok_eq s a b e1 n1 p h
  rw [hs]
  refine ⟨?_, ?_, fun t c d e m hnd => create_preserves_key_nodup t c d e m hnd⟩
  · simp [create, hab, storeLookup]
  · simp [storeLookup]

/-- C6 (witness): instantiation at the empty store, agents `pk 1` and
`pk 2`. -/
theorem create_duplicate_rejected_witness :
    (pk 1 ≠ pk 2 ∧ (create [] (pk 1) (pk 2) true 0).1 = Except.ok basePathway) ∧
    (create ((create [] (pk 1) (pk 2) true 0).2) (pk 1) (pk 2) true 9 =
      (Except.error NeuralPathwayError.PathwayAlreadyExists,
        (create [] (pk 1) (pk 2) true 0).2) ∧
    storeLookup ((create [] (pk 1) (pk 2) true 0).2) (pk 1, pk 2) = some basePathway ∧
    ∀ (t : PathwayStore) (c d : Pubkey) (e : Bool) (m : Int),
      (t.map Prod.fst).Nodup → (((create t c d e m).2).map Prod.fst).Nodup) :=
  ⟨⟨by decide, rfl⟩, create_duplicate_rejected [] (pk 1) (pk 2) true true 0 9 basePathway
    (by decide) rfl⟩

/-- C2: on an existing pathway, `Reinforce(Success)` increments
`success_count` by exactly 1 (leaving `failure_count` unchanged) and sets
strength to `min 255 (strength + 1)`; starting from strength 1, after 300
(indeed any ≥ 300) iterated `Success` reinforcements the stored strength
is 255 and stays 255. -/
theorem reinforce_success_spec (s : PathwayStore) (k : PathwayKey) (now : Int)
    (p : NeuralPathway) (h : storeLookup s k = some p) :
    (∃ q, (reinforce s k Outcome.Success now).1 = Except.ok q ∧
      q.success_count = p.success_count + 1 ∧
      q.failure_count = p.failure_count ∧
      q.strength = min 255 (p.strength + 1)) ∧
    (p.strength = 1 → ∀ n, 300 ≤ n →
      ∃ r, storeLookup (reinforceIter s k Outcome.Success now n) k = some r ∧
        r.strength = 255) := by
  constructor
  · exact ⟨applyOutcome p Outcome.Success now, by simp [reinforce, h], rfl, rfl, rfl⟩
  · intro h1 n hn
    obtain ⟨r, hr, hstr⟩ := reinforceIter_success_lookup s k now p h (by omega) n
    exact ⟨r, hr, by omega⟩

/-- C2 (witness): instantiation at the one-record store `baseStore`
(strength 1) with `n = 300`. -/
theorem reinforce_success_spec_witness :
    storeLookup baseStore (pk 1, pk 2) = some basePathway ∧
    ((∃ q, (reinforce baseStore (pk 1, pk 2) Outcome.Success 5).1 = Except.ok q ∧
      q.success_count = basePathway.success_count + 1 ∧
      q.failure_count = basePathway.failure_count ∧
      q.strength = min 255 (basePathway.strength + 1)) ∧
    (basePathway.strength = 1 → ∀ n, 300 ≤ n →
      ∃ r, storeLookup (reinforceIter baseStore (pk 1, pk 2) Outcome.Success 5 n)
        (pk 1, pk 2) = some r ∧ r.strength = 255)) :=
  ⟨rfl, reinforce_success_spec baseStore (pk 1, pk 2) 5 basePathway rfl⟩

/-- C3: on an existing pathway, `Reinforce(Failure)` increments
`failure_count` by exactly 1 (leaving `success_count` unchanged) and sets
strength to `max 0 (strength - 1)` (saturating, never wrapping to 255);
starting from strength 1, after any positive number of iterated `Failure`
reinforcements the stored strength is 0, never 255. -/
theorem reinforce_failure_spec (s : PathwayStore) (k : PathwayKey) (now : Int)
    (p : NeuralPathway) (h : storeLookup s k = some p) :
    (∃ q, (reinforce s k Outcome.Failure now).1 = Except.ok q ∧
      q.failure_count = p.failure_count + 1 ∧
      q.success_count = p.success_count ∧
      (q.strength : Int) = max 0 ((p.strength : Int) - 1)) ∧
    (p.strength = 1 → ∀ n, 1 ≤ n →
      ∃ r, storeLookup (reinforceIter s k Outcome.Failure now n) k = some r ∧
        r.strength = 0 ∧ r.strength ≠ 255) := by
  constructor
  · refine ⟨applyOutcome p Outcome.Failure now, by simp [reinforce, h], rfl, rfl, ?_⟩
    simp only [applyOutcome]
    omega
  · intro h1 n hn
    obtain ⟨r, hr, hstr⟩ := reinforceIter_failure_lookup s k now p h n
    exact ⟨r, hr, by omega, by omega⟩

/-- C3 (witness): instantiation at the one-record store `baseStore`
(strength 1) with `n = 1`. -/
theorem reinforce_failure_spec_witness :
    storeLookup baseStore (pk 1, pk 2) = some basePathway ∧
    ((∃ q, (reinforce baseStore (pk 1, pk 2) Outcome.Failure 5).1 = Except.ok q ∧
      q.failure_count = basePathway.failure_count + 1 ∧
      q.success_count = basePathway.success_count ∧
      (q.strength : Int) = max 0 ((basePathway.strength : Int) - 1)) ∧
    (basePathway.strength = 1 → ∀ n, 1 ≤ n →
      ∃ r, storeLookup (reinforceIter baseStore (pk 1, pk 2) Outcome.Failure 5 n)
        (pk 1, pk 2) = some r ∧ r.strength = 0 ∧ r.strength ≠ 255)) :=
  ⟨rfl, reinforce_failure_spec baseStore (pk 1, pk 2) 5 basePathway rfl⟩

/-- C8: `Create` makes `created_at = last_used` (so the invariant
`last_used ≥ created_at` holds), and a `Reinforce` at time
`now ≥ created_at` preserves `created_at`, sets `last_used = now`, and
re-establishes the invariant. -/
theorem pathway_timestamps_invariant (s : PathwayStore) (k : PathwayKey) (o : Outcome)
    (now : Int) (p q : NeuralPathway)
    (h : storeLookup s k = some p)
    (hres : (reinforce s k o now).1 = Except.ok q)
    (hclock : p.created_at ≤ now) :
    (∀ (a b : Pubkey) (t : Int),
      (NeuralPathway.new a b t).created_at ≤ (NeuralPathway.new a b t).last_used) ∧
    q.created_at = p.created_at ∧
    q.last_used = now ∧
    q.created_at ≤ q.last_used := by
  have hq : q = applyOutcome p o now := by
    simp only [reinforce, h, Except.ok.injEq] at hres
    exact hres.symm
  subst hq
  refine ⟨fun a b t => le_refl t, ?_, ?_, ?_⟩ <;> cases o <;>
    simp only [applyOutcome] <;> omega

/-- C8 (witness): instantiation at `baseStore` (created at time 0) with a
`Success` reinforcement at time 5. -/
theorem pathway_timestamps_invariant_witness :
    (storeLookup baseStore (pk 1, pk 2) = some basePathway ∧
      (reinforce baseStore (pk 1, pk 2) Outcome.Success 5).1 =
        Except.ok (applyOutcome basePathway Outcome.Success 5) ∧
      basePathway.created_at ≤ 5) ∧
    ((∀ (a b : Pubkey) (t : Int),
      (NeuralPathway.new a b t).created_at ≤ (NeuralPathway.new a b t).last_used) ∧
    (applyOutcome basePathway Outcome.Success 5).created_at = basePathway.created_at ∧
    (applyOutcome basePathway Outcome.Success 5).last_used = 5 ∧
    (applyOutcome basePathway Outcome.Success 5).created_at ≤
      (applyOutcome basePathway Outcome.Success 5).last_used) :=
  ⟨⟨rfl, rfl, by decide⟩,
    pathway_timestamps_invariant baseStore (pk 1, pk 2) Outcome.Success 5 basePathway
      (applyOutcome basePathway Outcome.Success 5) rfl rfl (by decide)⟩

/-- C1 (counterexample): issuing against an existing pathway of strength
7 produces a token record of strength 1, not 7 — `TokenMetadata::new`
initializes `strength` to the constant 1 and never reads the pathway. -/
theorem issue_snapshot_cex :
    indexLookup [(pk 3, pathwaySeven)] (pk 3) = some pathwaySeven ∧
    pathwaySeven.strength = 7 ∧
    (issue [(pk 3, pathwaySeven)] [] (pk 3) (pk 4) (pk 5) "u" 0).1 =
      Except.ok (TokenMetadata.new (pk 3) (pk 4) (pk 5) "u" 0) ∧
    (TokenMetadata.new (pk 3) (pk 4) (pk 5) "u" 0).strength = 1 ∧
    (TokenMetadata.new (pk 3) (pk 4) (pk 5) "u" 0).strength ≠ 7 :=
  ⟨rfl, rfl, rfl, rfl, by decide⟩

/-- C1 (amended): every token record created by a successful `Issue` has
strength 1 (the constant written by `TokenMetadata::new`), regardless of
the referenced pathway's current strength, and `created_at = now`. -/
theorem issue_strength_is_one (px : PathwayIndex) (reg : TokenRegistry)
    (pid mint owner : Pubkey) (uri : String) (now : Int) (t : TokenMetadata)
    (h : (issue px reg pid mint owner uri now).1 = Except.ok t) :
    t.strength = 1 ∧ t.created_at = now := by
  cases hl : indexLookup px pid with
  | none => simp [issue, hl] at h
  | some v =>
    by_cases hm : (regLookup reg mint).isSome
    · simp [issue, hl, hm] at h
    · simp only [issue, hl, hm, Bool.false_eq_true, if_false, Except.ok.injEq] at h
      rw [← h]
      exact ⟨rfl, rfl⟩

/-- C1 (amended, witness): instantiation at the strength-7 pathway of the
counterexample's scenario. -/
theorem issue_strength_is_one_witness :
    (issue [(pk 3, pathwaySeven)] [] (pk 3) (pk 4) (pk 5) "u" 0).1 =
      Except.ok (TokenMetadata.new (pk 3) (pk 4) (pk 5) "u" 0) ∧
    ((TokenMetadata.new (pk 3) (pk 4) (pk 5) "u" 0).strength = 1 ∧
      (TokenMetadata.new (pk 3) (pk 4) (pk 5) "u" 0).created_at = 0) :=
  ⟨rfl, issue_strength_is_one [(pk 3, pathwaySeven)] [] (pk 3) (pk 4) (pk 5) "u" 0
    (TokenMetadata.new (pk 3) (pk 4) (pk 5) "u" 0) rfl⟩
